import Mathlib

/-!
Shallow embedding of the call subsystem of the breykychat client
(src/hooks/useWebRTC.ts and src/types/calls.ts), together with theorems
settling the specification claims about it.

The hook's mutable refs and react state are modelled as one explicit
`HookState` record; every operation is a pure state transformer that also
returns the list of externally visible actions (persistence writes,
signals, toasts, media-capture requests) it performs, in order.  Network-
bound steps that can fail are parameterised by their outcome (`Except`).
-/

namespace Breyky

/-- Connection quality levels declared in src/types/calls.ts. -/
inductive ConnectionQuality
  | excellent
  | good
  | fair
  | poor
  | disconnected
deriving DecidableEq, Repr

/-- Call session status values declared in src/types/calls.ts. -/
inductive CallStatus
  | pending
  | ringing
  | connected
  | ended
  | missed
  | declined
  | busy
deriving DecidableEq, Repr

/-- Call type (audio or video), from src/types/calls.ts. -/
inductive CallType
  | audio
  | video
deriving DecidableEq, Repr

/-! ### Connection-quality classification (monitorQuality) -/

/-- The partial stats sample assembled by `monitorQuality` before
classification: each field may be absent (`undefined` in the source,
since `callStats` is a `Partial<CallStats>`). -/
structure StatsSample where
  packetsLost : Option ℚ
  jitter : Option ℚ
  rtt : Option ℚ
deriving DecidableEq, Repr

/-- JavaScript truthiness of an optional numeric field: absent and zero
are falsy. -/
def truthy : Option ℚ → Bool
  | none => false
  | some v => v ≠ 0

/-- The guarded comparison `field && field > c` used by each branch of the
classifier. -/
def gtField (x : Option ℚ) (c : ℚ) : Bool :=
  truthy x && decide (x.getD 0 > c)

/-- Quality classification from `monitorQuality`
(src/hooks/useWebRTC.ts, the `Determine connection quality` block). -/
def classifyQuality (s : StatsSample) : ConnectionQuality :=
  if gtField s.packetsLost 10 then .poor
  else if gtField s.packetsLost 5 then .fair
  else if gtField s.jitter 30 then .fair
  else if gtField s.rtt 200 then .fair
  else .excellent

/-- The classification policy exactly as the specification words it, as a
pure function of the three numeric fields of the latest sample. -/
def specQuality (packetsLost jitter rtt : ℚ) : ConnectionQuality :=
  if packetsLost > 10 then .poor
  else if packetsLost > 5 then .fair
  else if jitter > 30 then .fair
  else if rtt > 200 then .fair
  else .excellent

/-! ### Persisted rows and participants (src/types/calls.ts) -/

/-- Participant identity resolved from the `profiles` table. -/
structure CallParticipantM where
  id : String
  username : Option String
  display_name : Option String
  avatar_url : Option String
deriving DecidableEq, Repr

/-- A `call_sessions` row.  Timestamps are modelled as integer epoch
milliseconds. -/
structure CallSessionM where
  id : String
  conversation_id : String
  caller_id : String
  callee_id : String
  status : CallStatus
  call_type : CallType
  started_at : Option Int
  ended_at : Option Int
  duration_seconds : Option Int
  created_at : Int
deriving DecidableEq, Repr

/-- The local ephemeral incoming-call record. -/
structure IncomingCallM where
  session : CallSessionM
  caller : CallParticipantM
deriving DecidableEq, Repr

/-- A `call_messages` row. -/
structure CallMessageM where
  id : String
  call_id : String
  sender_id : String
  content : String
deriving DecidableEq, Repr

/-! ### Media objects -/

/-- One media track.  Stop-ness is tracked separately (in
`HookState.stoppedTracks`, by id) because in the source the same track
object is aliased between streams and peer-connection senders. -/
structure Track where
  id : String
  kind : String
  enabled : Bool
deriving DecidableEq, Repr

/-- A media stream: an ordered collection of tracks. -/
structure MediaStreamM where
  tracks : List Track
deriving DecidableEq, Repr

/-- `stream.getAudioTracks()`. -/
def MediaStreamM.getAudioTracks (m : MediaStreamM) : List Track :=
  m.tracks.filter (fun t => t.kind == "audio")

/-- `stream.getVideoTracks()`. -/
def MediaStreamM.getVideoTracks (m : MediaStreamM) : List Track :=
  m.tracks.filter (fun t => t.kind == "video")

/-- MediaRecorder state values used by the source. -/
inductive RecState
  | inactive
  | recording
  | paused
deriving DecidableEq, Repr

/-- The media recorder handle. -/
structure RecorderM where
  state : RecState
deriving DecidableEq, Repr

/-- An RTP sender of the peer connection: `sender.track`. -/
structure SenderM where
  track : Option Track
deriving DecidableEq, Repr

/-- The peer connection: its senders and negotiated descriptions /
candidates (payloads kept opaque as strings). -/
structure PeerConnM where
  senders : List SenderM
  remoteDescription : Option String
  localDescription : Option String
  iceCandidates : List String
deriving DecidableEq, Repr

/-- `signal_data` payloads, keyed by signal type. -/
inductive SignalData
  | sdp (desc : String)
  | ice (cand : String)
  | volume (v : Int)
  | deviceId (d : String)
  | empty
deriving DecidableEq, Repr

/-- A `call_signals` row as seen by the per-call INSERT handler. -/
structure SignalRow where
  signal_type : String
  sender_id : String
  signal_data : SignalData
deriving DecidableEq, Repr

/-! ### Local call state (ActiveCall) and the hook state -/

/-- The `ActiveCall` record of src/types/calls.ts (device lists are kept
as device-id lists). -/
structure ActiveCallM where
  session : CallSessionM
  localStream : Option MediaStreamM
  remoteStream : Option MediaStreamM
  screenStream : Option MediaStreamM
  isAudioEnabled : Bool
  isVideoEnabled : Bool
  isScreenSharing : Bool
  isRecording : Bool
  localVolume : Int
  remoteVolume : Int
  selectedCameraDeviceId : Option String
  selectedAudioDeviceId : Option String
  selectedOutputDeviceId : Option String
  availableCameras : List String
  availableMicrophones : List String
  availableSpeakers : List String
  connectionQuality : ConnectionQuality
  stats : Option StatsSample
  otherParticipant : Option CallParticipantM
deriving DecidableEq, Repr

/-- The device lists returned by `enumerateDevices`. -/
structure Devices where
  cameras : List String
  microphones : List String
  speakers : List String
deriving DecidableEq, Repr

/-- The whole mutable state of the `useWebRTC` hook: react state
(`user` from useAuth, `activeCall`, `incomingCall`, `callMessages`,
`isConnecting`) plus the refs.  `stoppedTracks` records the ids of tracks
on which `stop()` has been called. -/
structure HookState where
  user : Option String
  activeCall : Option ActiveCallM
  incomingCall : Option IncomingCallM
  callMessages : List CallMessageM
  isConnecting : Bool
  peerConnection : Option PeerConnM
  localStream : Option MediaStreamM
  screenStream : Option MediaStreamM
  channel : Option String
  statsInterval : Option Nat
  mediaRecorder : Option RecorderM
  recordedChunks : List Nat
  stoppedTracks : List String
deriving DecidableEq, Repr

/-- Externally visible effects an operation performs, in order. -/
inductive Action
  | acquireMedia (callType : CallType) (videoDeviceId audioDeviceId : Option String)
  | acquireDisplayMedia
  | insertSignal (callId : String) (senderId : String) (signalType : String)
  | insertMessage (callId : String) (senderId : String) (content : String)
  | insertSessionRow (row : CallSessionM)
  | updateSessionStatus (id : String) (status : CallStatus)
  | updateSessionConnected (id : String) (startedAt : Int)
  | updateSessionEnded (id : String) (endedAt : Int) (durationSeconds : Int)
  | toastError (msg : String)
  | toastInfo (msg : String)
  | toastSuccess (msg : String)
  | downloadRecording (chunks : List Nat)
deriving DecidableEq, Repr

/-! ### cleanup -/

/-- `recorder.stop()` guarded by `state !== 'inactive'`, as both `cleanup`
and `toggleRecording` perform it. -/
def stopRecorder (r : RecorderM) : RecorderM :=
  if r.state ≠ .inactive then { r with state := .inactive } else r

/-- `cleanup` (useWebRTC): closes and nulls the peer connection, stops and
nulls local and screen streams, removes and nulls the channel, clears and
nulls the stats timer, stops a non-inactive recorder (without nulling the
ref), empties the recorded chunks, and clears the ephemeral react state. -/
def cleanup (s : HookState) : HookState :=
  let stopped := s.stoppedTracks
    ++ (match s.localStream with
        | some m => m.tracks.map (fun t => t.id)
        | none => [])
    ++ (match s.screenStream with
        | some m => m.tracks.map (fun t => t.id)
        | none => [])
  { s with
    peerConnection := none
    localStream := none
    screenStream := none
    channel := none
    statsInterval := none
    mediaRecorder := s.mediaRecorder.map stopRecorder
    recordedChunks := []
    activeCall := none
    callMessages := []
    isConnecting := false
    stoppedTracks := stopped }

/-! ### setVolume and the per-call channel handlers -/

/-- `setVolume(volume, isRemote)`: no-op without a local stream; with
`isRemote` and a (truthy) remote stream it adjusts playback and records
`remoteVolume`, otherwise it records `localVolume`. -/
def setVolume (volume : Int) (isRemote : Bool) (s : HookState) : HookState :=
  match s.localStream with
  | none => s
  | some _ =>
    if isRemote && (s.activeCall.bind (fun ac => ac.remoteStream)).isSome then
      { s with activeCall := s.activeCall.map (fun prev =>
          { prev with remoteVolume := volume }) }
    else
      { s with activeCall := s.activeCall.map (fun prev =>
          { prev with localVolume := volume }) }

/-- The `call_signals` INSERT handler of `setupSignaling`.  Signals echoed
back to their author are dropped first; without a peer connection nothing
happens.  `answer` parameterises the description the connection would
produce for an incoming offer.  (In the offer branch the source reads
`user!.id`; every reachable flow has a non-null user there, modelled with
`getD`.) -/
def handleSignalInsert (callId : String) (signal : SignalRow)
    (answer : String) (s : HookState) : HookState × List Action :=
  if s.user = some signal.sender_id then (s, [])
  else
    match s.peerConnection with
    | none => (s, [])
    | some pc =>
      if signal.signal_type == "offer" then
        let desc := match signal.signal_data with
          | .sdp d => d
          | _ => ""
        let pc1 : PeerConnM :=
          { pc with remoteDescription := some desc, localDescription := some answer }
        ({ s with peerConnection := some pc1 },
         [.insertSignal callId (s.user.getD "") "answer"])
      else if signal.signal_type == "answer" then
        let desc := match signal.signal_data with
          | .sdp d => d
          | _ => ""
        let pc1 : PeerConnM := { pc with remoteDescription := some desc }
        ({ s with peerConnection := some pc1 }, [])
      else if signal.signal_type == "ice-candidate" then
        let cand := match signal.signal_data with
          | .ice c => c
          | _ => ""
        let pc1 : PeerConnM := { pc with iceCandidates := pc.iceCandidates ++ [cand] }
        ({ s with peerConnection := some pc1 }, [])
      else if signal.signal_type == "hangup" then
        (cleanup s, [.toastInfo "Chamada encerrada"])
      else if signal.signal_type == "recording-start" then
        (s, [.toastInfo "Participante começou a gravar"])
      else if signal.signal_type == "recording-stop" then
        (s, [.toastInfo "Participante parou de gravar"])
      else if signal.signal_type == "camera-switch" then
        (s, [])
      else if signal.signal_type == "audio-switch" then
        (s, [])
      else if signal.signal_type == "volume-control" then
        match signal.signal_data with
        | .volume v => (setVolume v true s, [])
        | _ => (s, [])
      else (s, [])

/-- The `call_sessions` UPDATE handler of `setupSignaling`: on `ended` or
`declined` it toasts and runs `cleanup`; in every case it then replaces
`activeCall.session` with the freshly delivered row (via the functional
updater, which after a cleanup sees `null` and keeps it). -/
def handleSessionUpdate (row : CallSessionM) (s : HookState) :
    HookState × List Action :=
  let step :=
    if row.status = .ended ∨ row.status = .declined then
      (cleanup s,
       [Action.toastInfo
          (if row.status = .declined then "Chamada recusada" else "Chamada encerrada")])
    else (s, [])
  ({ step.1 with activeCall := step.1.activeCall.map (fun prev =>
      { prev with session := row }) },
   step.2)

/-! ### The incoming-calls listener -/

/-- Body of the incoming-calls INSERT callback (the subscription is
filtered server-side to rows with `callee_id` equal to the local user's
id): non-`ringing` rows are ignored; otherwise the caller profile is
resolved and, when found, an `IncomingCall` is published. -/
def handleIncomingInsert (profiles : String → Option CallParticipantM)
    (row : CallSessionM) (incomingCall : Option IncomingCallM) :
    Option IncomingCallM :=
  if row.status ≠ .ringing then incomingCall
  else
    match profiles row.caller_id with
    | some caller => some ⟨row, caller⟩
    | none => incomingCall

/-- A top-level statement of the hook body: either the registration of an
effect or a return statement. -/
inductive HookItem
  | registerEffect (name : String)
  | returnResult
deriving DecidableEq, Repr

/-- The statement order of the tail of `useWebRTC`'s body, after the last
callback definition (`toggleRecording`): the return object comes first,
followed by the two `useEffect` registrations (the incoming-calls
listener and the unmount cleanup) and a second return object. -/
def useWebRTCTail : List HookItem :=
  [.returnResult,
   .registerEffect "incoming-calls-listener",
   .registerEffect "cleanup-on-unmount",
   .returnResult]

/-- Execution of a function body stops at the first return statement. -/
def executedItems (body : List HookItem) : List HookItem :=
  body.takeWhile (fun item => item ≠ .returnResult)

/-- The effects a body actually registers when it runs. -/
def registeredEffects (body : List HookItem) : List String :=
  (executedItems body).filterMap (fun item =>
    match item with
    | .registerEffect n => some n
    | .returnResult => none)

/-! ### toggleAudio -/

/-- Sets the `enabled` flag of the first track of the given kind (the
track returned by `getXxxTracks()[0]`), which is what mutating the shared
track object does. -/
def setFirstEnabledOfKind (k : String) (b : Bool) : List Track → List Track
  | [] => []
  | t :: rest =>
    if t.kind == k then { t with enabled := b } :: rest
    else t :: setFirstEnabledOfKind k b rest

/-- `toggleAudio`: no-op without a local stream or without an audio track;
otherwise flips the first audio track's `enabled` flag and mirrors the new
value into `activeCall.isAudioEnabled`. -/
def toggleAudio (s : HookState) : HookState :=
  match s.localStream with
  | none => s
  | some stream =>
    match stream.getAudioTracks.head? with
    | none => s
    | some t =>
      let newEnabled := ! t.enabled
      { s with
        localStream := some
          { stream with tracks := setFirstEnabledOfKind "audio" newEnabled stream.tracks }
        activeCall := s.activeCall.map (fun prev =>
          { prev with isAudioEnabled := newEnabled }) }

/-! ### Device switching -/

/-- `sender.track?.kind === k`. -/
def SenderM.hasTrackOfKind (k : String) (sd : SenderM) : Bool :=
  match sd.track with
  | some tr => tr.kind == k
  | none => false

/-- `getSenders().find(s => s.track?.kind === k)`. -/
def findSenderOfKind (k : String) (senders : List SenderM) : Option SenderM :=
  senders.find? (SenderM.hasTrackOfKind k)

/-- `sender.replaceTrack(t)` on the first sender carrying a track of the
given kind. -/
def replaceSenderTrackOfKind (k : String) (t : Option Track) :
    List SenderM → List SenderM
  | [] => []
  | sd :: rest =>
    if SenderM.hasTrackOfKind k sd then { sd with track := t } :: rest
    else sd :: replaceSenderTrackOfKind k t rest

/-- `switchCamera(deviceId)`, parameterised by the outcome of the
`getUserMedia` call.  On success `getUserMedia` assigns the fresh stream
to `localStreamRef` before returning, so the later `Stop old track` step
reads the video tracks of the NEW stream.  On failure it toasts and
changes nothing. -/
def switchCamera (deviceId : String) (mediaResult : Except Unit MediaStreamM)
    (s : HookState) : HookState × List Action :=
  match s.activeCall, s.user with
  | some ac, some uid =>
    (match mediaResult with
     | .error _ =>
        (s, [.acquireMedia ac.session.call_type (some deviceId) none,
             .toastError "Erro ao trocar câmera"])
     | .ok newStream =>
        let s1 := { s with localStream := some newStream }
        let videoTrack := newStream.getVideoTracks.head?
        let s2 :=
          match s1.peerConnection with
          | none => s1
          | some pc =>
            match findSenderOfKind "video" pc.senders with
            | none => s1
            | some sd =>
              if sd.track.isSome then
                let pc1 :=
                  { pc with senders := replaceSenderTrackOfKind "video" videoTrack pc.senders }
                let oldTracks := (s1.localStream.map (fun (m : MediaStreamM) => m.getVideoTracks)).getD []
                let stream1 := s1.localStream.map (fun (m : MediaStreamM) =>
                  { m with tracks :=
                      (m.tracks.filter (fun x => ! oldTracks.contains x)) ++ videoTrack.toList })
                { s1 with
                  peerConnection := some pc1
                  stoppedTracks := s1.stoppedTracks ++ oldTracks.map (fun (t : Track) => t.id)
                  localStream := stream1 }
              else s1
        ({ s2 with activeCall := s2.activeCall.map (fun prev =>
            { prev with selectedCameraDeviceId := some deviceId }) },
         [.acquireMedia ac.session.call_type (some deviceId) none,
          .insertSignal ac.session.id uid "camera-switch"]))
  | _, _ => (s, [])

/-- `switchAudioDevice(deviceId)`: the audio counterpart of
`switchCamera`, with the same stop-after-reassignment behaviour. -/
def switchAudioDevice (deviceId : String) (mediaResult : Except Unit MediaStreamM)
    (s : HookState) : HookState × List Action :=
  match s.activeCall, s.user with
  | some ac, some uid =>
    (match mediaResult with
     | .error _ =>
        (s, [.acquireMedia ac.session.call_type none (some deviceId),
             .toastError "Erro ao trocar dispositivo de áudio"])
     | .ok newStream =>
        let s1 := { s with localStream := some newStream }
        let audioTrack := newStream.getAudioTracks.head?
        let s2 :=
          match s1.peerConnection with
          | none => s1
          | some pc =>
            match findSenderOfKind "audio" pc.senders with
            | none => s1
            | some sd =>
              if sd.track.isSome then
                let pc1 :=
                  { pc with senders := replaceSenderTrackOfKind "audio" audioTrack pc.senders }
                let oldTracks := (s1.localStream.map (fun (m : MediaStreamM) => m.getAudioTracks)).getD []
                let stream1 := s1.localStream.map (fun (m : MediaStreamM) =>
                  { m with tracks :=
                      (m.tracks.filter (fun x => ! oldTracks.contains x)) ++ audioTrack.toList })
                { s1 with
                  peerConnection := some pc1
                  stoppedTracks := s1.stoppedTracks ++ oldTracks.map (fun (t : Track) => t.id)
                  localStream := stream1 }
              else s1
        ({ s2 with activeCall := s2.activeCall.map (fun prev =>
            { prev with selectedAudioDeviceId := some deviceId }) },
         [.acquireMedia ac.session.call_type none (some deviceId),
          .insertSignal ac.session.id uid "audio-switch"]))
  | _, _ => (s, [])

/-! ### Screen sharing, recording, chat, lifecycle operations -/

/-- `toggleScreenShare`, parameterised by the outcome of the
`getDisplayMedia` request (only consulted when starting).  Guarded on an
active call, a peer connection and a user. -/
def toggleScreenShare (displayResult : Except Unit MediaStreamM)
    (s : HookState) : HookState × List Action :=
  match s.activeCall, s.peerConnection, s.user with
  | some ac, some pc, some uid =>
    if ac.isScreenSharing then
      let stopped := match s.screenStream with
        | some m => m.tracks.map (fun (t : Track) => t.id)
        | none => []
      let s1 := { s with screenStream := none, stoppedTracks := s.stoppedTracks ++ stopped }
      let s2 :=
        match s1.localStream with
        | none => s1
        | some m =>
          match m.getVideoTracks.head? with
          | none => s1
          | some vt =>
            match findSenderOfKind "video" pc.senders with
            | none => s1
            | some _ =>
              let pc1 : PeerConnM :=
                { pc with senders := replaceSenderTrackOfKind "video" (some vt) pc.senders }
              { s1 with peerConnection := some pc1 }
      ({ s2 with activeCall := s2.activeCall.map (fun prev =>
          { prev with isScreenSharing := false, screenStream := none }) },
       [.insertSignal ac.session.id uid "screen-share-stop"])
    else
      match displayResult with
      | .error _ => (s, [.acquireDisplayMedia, .toastError "Erro ao compartilhar tela"])
      | .ok screenStream =>
        let s1 := { s with screenStream := some screenStream }
        let screenTrack := screenStream.getVideoTracks.head?
        let s2 :=
          match findSenderOfKind "video" pc.senders with
          | none => s1
          | some _ =>
            let pc1 : PeerConnM :=
              { pc with senders := replaceSenderTrackOfKind "video" screenTrack pc.senders }
            { s1 with peerConnection := some pc1 }
        ({ s2 with activeCall := s2.activeCall.map (fun prev =>
            { prev with isScreenSharing := true, screenStream := some screenStream }) },
         [.acquireDisplayMedia, .insertSignal ac.session.id uid "screen-share-start"])
  | _, _, _ => (s, [])

/-- `toggleRecording`: stop path stops a non-inactive recorder, signals,
clears the flag, and when chunks were collected downloads them and
toasts; start path requires a local stream, resets the chunk buffer,
starts a fresh recorder, signals and toasts. -/
def toggleRecording (s : HookState) : HookState × List Action :=
  match s.activeCall, s.user with
  | some ac, some uid =>
    if ac.isRecording then
      let s1 : HookState := { s with mediaRecorder := s.mediaRecorder.map stopRecorder }
      let s2 : HookState := { s1 with activeCall := s1.activeCall.map (fun prev =>
        { prev with isRecording := false }) }
      if s2.recordedChunks.length > 0 then
        ({ s2 with recordedChunks := [] },
         [.insertSignal ac.session.id uid "recording-stop",
          .downloadRecording s2.recordedChunks,
          .toastSuccess "Gravação salva com sucesso!"])
      else
        (s2, [.insertSignal ac.session.id uid "recording-stop"])
    else
      match s.localStream with
      | none => (s, [])
      | some _ =>
        let s1 := { s with recordedChunks := [], mediaRecorder := some ⟨.recording⟩ }
        let s2 := { s1 with activeCall := s1.activeCall.map (fun prev =>
          { prev with isRecording := true }) }
        (s2, [.insertSignal ac.session.id uid "recording-start",
              .toastInfo "Gravação iniciada"])
  | _, _ => (s, [])

/-- `sendCallMessage(content)`: persists a chat row for the active call. -/
def sendCallMessage (content : String) (s : HookState) : HookState × List Action :=
  match s.activeCall, s.user with
  | some ac, some uid => (s, [.insertMessage ac.session.id uid content])
  | _, _ => (s, [])

/-- `endCall`, with `now` the wall clock in epoch milliseconds: computes
`durationSeconds = Math.floor((endedAt - startedAt) / 1000)` where a null
`started_at` is replaced by `endedAt` itself, sends a hangup signal,
persists the `ended` update and runs `cleanup`. -/
def endCall (now : Int) (s : HookState) : HookState × List Action :=
  match s.activeCall, s.user with
  | some ac, some uid =>
    let startedAt := ac.session.started_at.getD now
    let durationSeconds := Int.fdiv (now - startedAt) 1000
    (cleanup s,
     [.insertSignal ac.session.id uid "hangup",
      .updateSessionEnded ac.session.id now durationSeconds])
  | _, _ => (s, [])

/-- `declineCall`: requires a pending incoming call; persists `declined`
and clears it.  No media acquisition ever happens on this path. -/
def declineCall (s : HookState) : HookState × List Action :=
  match s.incomingCall with
  | none => (s, [])
  | some ic =>
    ({ s with incomingCall := none },
     [.updateSessionStatus ic.session.id .declined])

/-- The `call_sessions` row `startCall` inserts: only conversation,
participants, type and `ringing` status are supplied, so the timestamp
and duration columns start as null. -/
def startCallRow (conversationId calleeId : String) (callType : CallType)
    (uid sessionId : String) (now : Int) : CallSessionM :=
  { id := sessionId
    conversation_id := conversationId
    caller_id := uid
    callee_id := calleeId
    status := .ringing
    call_type := callType
    started_at := none
    ended_at := none
    duration_seconds := none
    created_at := now }

/-- `startCall(conversationId, calleeId, callType)`, parameterised by the
environment: the enumerated devices, the outcome of `getUserMedia`, the id
the insert returns, the resolved callee profile and the wall clock.
Unauthenticated users get a toast and nothing else; a media failure runs
`cleanup` with an error toast.  (Persistence failures of the insert and
the offer, unhandled in the source, are not modelled.) -/
def startCall (conversationId calleeId : String) (callType : CallType)
    (devices : Devices) (mediaResult : Except Unit MediaStreamM)
    (sessionId : String) (callee : Option CallParticipantM) (now : Int)
    (s : HookState) : HookState × List Action :=
  match s.user with
  | none => (s, [.toastError "Você precisa estar logado"])
  | some uid =>
    let s0 := { s with isConnecting := true }
    match mediaResult with
    | .error _ =>
      (cleanup s0,
       [.acquireMedia callType none none, .toastError "Erro ao iniciar chamada"])
    | .ok stream =>
      let s1 := { s0 with localStream := some stream }
      let row := startCallRow conversationId calleeId callType uid sessionId now
      let pc : PeerConnM :=
        { senders := stream.tracks.map (fun t => { track := some t })
          remoteDescription := none
          localDescription := some "offer-sdp"
          iceCandidates := [] }
      let s2 := { s1 with peerConnection := some pc, channel := some ("call:" ++ sessionId) }
      let ac : ActiveCallM :=
        { session := row
          localStream := some stream
          remoteStream := none
          screenStream := none
          isAudioEnabled := true
          isVideoEnabled := callType == .video
          isScreenSharing := false
          isRecording := false
          localVolume := 100
          remoteVolume := 100
          selectedCameraDeviceId := devices.cameras.head?
          selectedAudioDeviceId := devices.microphones.head?
          selectedOutputDeviceId := devices.speakers.head?
          availableCameras := devices.cameras
          availableMicrophones := devices.microphones
          availableSpeakers := devices.speakers
          connectionQuality := .excellent
          stats := none
          otherParticipant := callee }
      ({ s2 with activeCall := some ac, isConnecting := false },
       [.acquireMedia callType none none,
        .insertSessionRow row,
        .insertSignal sessionId uid "offer"])

/-! ### Persisted-row semantics of the session actions -/

/-- Applies one action to a persisted `call_sessions` row. -/
def applyAction (row : CallSessionM) (a : Action) : CallSessionM :=
  match a with
  | .updateSessionStatus i st =>
      if row.id = i then { row with status := st } else row
  | .updateSessionConnected i t =>
      if row.id = i then { row with status := .connected, started_at := some t } else row
  | .updateSessionEnded i endedAt dur =>
      if row.id = i then
        { row with status := .ended, ended_at := some endedAt, duration_seconds := some dur }
      else row
  | _ => row

/-- Applies a list of actions to a persisted row, in order. -/
def applyActions (row : CallSessionM) (as : List Action) : CallSessionM :=
  as.foldl applyAction row

/-! ### Concrete fixtures used for witnesses and counterexamples -/

/-- A resolvable caller profile. -/
def callerEx : CallParticipantM :=
  { id := "caller1", username := some "alice", display_name := some "Alice",
    avatar_url := none }

/-- A `profiles` lookup resolving exactly `caller1`. -/
def profilesEx : String → Option CallParticipantM := fun pid =>
  if pid = "caller1" then some callerEx else none

/-- A connected video session between `caller1` and the local user `u1`. -/
def sessionEx : CallSessionM :=
  { id := "call1", conversation_id := "conv1", caller_id := "caller1",
    callee_id := "u1", status := .connected, call_type := .video,
    started_at := some 1000, ended_at := none, duration_seconds := none,
    created_at := 500 }

/-- The same row as freshly inserted: still ringing, never answered. -/
def ringingRowEx : CallSessionM :=
  { sessionEx with status := .ringing, started_at := none }

/-- The same row after a remote hangup. -/
def endedRowEx : CallSessionM :=
  { sessionEx with
    status := .ended
    ended_at := some 9000
    duration_seconds := some 8 }

/-- The incoming-call record built from the ringing row. -/
def incomingCallEx : IncomingCallM := ⟨ringingRowEx, callerEx⟩

/-- Tracks of the stream active before a camera switch. -/
def audioTrackEx : Track := { id := "t-audio-old", kind := "audio", enabled := true }

/-- The previously transmitting camera track. -/
def videoTrackEx : Track := { id := "t-video-old", kind := "video", enabled := true }

/-- The audio track of the freshly acquired stream. -/
def newAudioTrackEx : Track := { id := "t-audio-new", kind := "audio", enabled := true }

/-- The freshly acquired camera track handed to `replaceTrack`. -/
def newVideoTrackEx : Track := { id := "t-video-new", kind := "video", enabled := true }

/-- The local stream in use before the switch. -/
def localStreamEx : MediaStreamM := ⟨[audioTrackEx, videoTrackEx]⟩

/-- The stream `getUserMedia` returns for the new camera. -/
def newStreamEx : MediaStreamM := ⟨[newAudioTrackEx, newVideoTrackEx]⟩

/-- A live `ActiveCall` for the connected video session. -/
def activeCallEx : ActiveCallM :=
  { session := sessionEx
    localStream := some localStreamEx
    remoteStream := none
    screenStream := none
    isAudioEnabled := true
    isVideoEnabled := true
    isScreenSharing := false
    isRecording := true
    localVolume := 100
    remoteVolume := 100
    selectedCameraDeviceId := some "cam1"
    selectedAudioDeviceId := some "mic1"
    selectedOutputDeviceId := none
    availableCameras := ["cam1", "cam2"]
    availableMicrophones := ["mic1"]
    availableSpeakers := []
    connectionQuality := .excellent
    stats := none
    otherParticipant := some callerEx }

/-- The hook state of a connected video call mid-recording: every ref is
live. -/
def midCallState : HookState :=
  { user := some "u1"
    activeCall := some activeCallEx
    incomingCall := none
    callMessages := []
    isConnecting := false
    peerConnection := some
      { senders := [⟨some audioTrackEx⟩, ⟨some videoTrackEx⟩]
        remoteDescription := some "remote-sdp"
        localDescription := some "local-sdp"
        iceCandidates := [] }
    localStream := some localStreamEx
    screenStream := none
    channel := some "call:call1"
    statsInterval := some 7
    mediaRecorder := some ⟨.recording⟩
    recordedChunks := [3, 5]
    stoppedTracks := [] }

/-- The hook state right after mount: everything null/empty, matching the
initial `useState`/`useRef` values. -/
def initialState : HookState :=
  { user := none, activeCall := none, incomingCall := none,
    callMessages := [], isConnecting := false, peerConnection := none,
    localStream := none, screenStream := none, channel := none,
    statsInterval := none, mediaRecorder := none, recordedChunks := [],
    stoppedTracks := [] }

/-- A callee-side state with a pending incoming call and nothing else. -/
def incomingState : HookState :=
  { initialState with user := some "u1", incomingCall := some incomingCallEx }

/-- The local audio track's enabled flag as `toggleAudio` reads it:
`localStreamRef.current.getAudioTracks()[0].enabled`. -/
def localAudioEnabled (s : HookState) : Option Bool :=
  s.localStream.bind (fun m => m.getAudioTracks.head?.map (fun t => t.enabled))

/-- For a strictly positive threshold the truthiness guard is redundant. -/
lemma gtField_some_pos (v c : ℚ) (hc : 0 < c) :
    gtField (some v) c = decide (v > c) := by
  unfold gtField truthy
  by_cases h : v > c
  · have hv : v ≠ 0 := (hc.trans h).ne'
    simp [h, hv]
  · simp [h]

/-- C1. The classifier agrees with the spec's precedence policy on every
sample whose fields are present, produces the four listed answers on the
four listed samples, and never yields `good` on any sample. -/
theorem classifyQuality_matches_spec :
    (∀ p j r : ℚ, classifyQuality ⟨some p, some j, some r⟩ = specQuality p j r)
    ∧ classifyQuality ⟨some 12, some 5, some 50⟩ = .poor
    ∧ classifyQuality ⟨some 0, some 40, some 50⟩ = .fair
    ∧ classifyQuality ⟨some 0, some 0, some 250⟩ = .fair
    ∧ classifyQuality ⟨some 0, some 0, some 50⟩ = .excellent
    ∧ ∀ s : StatsSample, classifyQuality s ≠ .good := by
  refine ⟨?_, by decide, by decide, by decide, by decide, ?_⟩
  · intro p j r
    unfold classifyQuality specQuality
    simp only [gtField_some_pos _ 10 (by norm_num),
      gtField_some_pos _ 5 (by norm_num),
      gtField_some_pos _ 30 (by norm_num),
      gtField_some_pos _ 200 (by norm_num),
      decide_eq_true_eq]
  · intro s
    unfold classifyQuality
    split_ifs <;> simp

/-! ### C4: cleanup -/

/-- Stopping a recorder always yields the inactive handle (the record has
no other field). -/
lemma stopRecorder_eq (r : RecorderM) : stopRecorder r = ⟨.inactive⟩ := by
  rcases r with ⟨st⟩
  cases st <;> rfl

/-- C4 counterexample: on a mid-call state with a live recorder, `cleanup`
does not null the media-recorder handle — it merely stops it — so the
claim that after `cleanup` every resource handle including the media
recorder is null fails. -/
theorem cleanup_keeps_recorder_handle :
    (cleanup midCallState).mediaRecorder = some ⟨.inactive⟩
    ∧ (cleanup midCallState).mediaRecorder ≠ none := by decide

/-- C4 (amended). `cleanup` is idempotent and total; after it runs the
peer connection, local stream, screen stream, signaling channel and stats
timer are null, the recorded chunks are empty, all ephemeral call state
(active call, call messages, connecting flag) is cleared, and any held
media recorder is stopped (driven to `inactive`) though its handle is
retained rather than nulled. -/
theorem cleanup_idempotent_and_clears :
    (∀ s : HookState, cleanup (cleanup s) = cleanup s)
    ∧ ∀ s : HookState,
        (cleanup s).peerConnection = none
        ∧ (cleanup s).localStream = none
        ∧ (cleanup s).screenStream = none
        ∧ (cleanup s).channel = none
        ∧ (cleanup s).statsInterval = none
        ∧ (cleanup s).recordedChunks = []
        ∧ (cleanup s).activeCall = none
        ∧ (cleanup s).callMessages = []
        ∧ (cleanup s).isConnecting = false
        ∧ (cleanup s).mediaRecorder
            = s.mediaRecorder.map (fun _ => (⟨.inactive⟩ : RecorderM)) := by
  have hmr : ∀ o : Option RecorderM,
      (o.map stopRecorder).map stopRecorder = o.map stopRecorder := by
    intro o; cases o <;> simp [stopRecorder_eq]
  constructor
  · intro s
    simp [cleanup, hmr]
  · intro s
    cases hm : s.mediaRecorder <;> simp [cleanup, hm, stopRecorder_eq]

/-! ### C2: the incoming-call listener -/

/-- C2 (code bug).  The `useEffect` registering the global incoming-call
listener sits after the hook body's return statement, so it never runs:
no insertion ever publishes an `IncomingCall`.  The handler itself, had
it been registered, behaves exactly as claimed: a ringing insertion with
a resolvable caller publishes the incoming call, and a non-ringing
insertion is ignored. -/
theorem incomingListener_dead_but_handler_correct :
    registeredEffects useWebRTCTail = []
    ∧ HookItem.registerEffect "incoming-calls-listener" ∈ useWebRTCTail
    ∧ handleIncomingInsert profilesEx ringingRowEx none = some incomingCallEx
    ∧ handleIncomingInsert profilesEx sessionEx none = none := by decide

/-! ### C6: self-authored signals -/

/-- C6. A signal whose `sender_id` equals the local user's id is dropped
by the first guard of the `call_signals` INSERT handler: the state is
untouched and no action is performed. -/
theorem selfSignal_ignored (callId : String) (signal : SignalRow)
    (answer : String) (s : HookState) (uid : String)
    (hu : s.user = some uid) (hsender : signal.sender_id = uid) :
    handleSignalInsert callId signal answer s = (s, []) := by
  simp [handleSignalInsert, hu, hsender]

/-- C6 witness: a self-authored hangup signal echoed back on the mid-call
state is ignored outright. -/
theorem selfSignal_ignored_witness :
    midCallState.user = some "u1"
    ∧ (⟨"hangup", "u1", .empty⟩ : SignalRow).sender_id = "u1"
    ∧ handleSignalInsert "call1" ⟨"hangup", "u1", .empty⟩ "a" midCallState
        = (midCallState, []) :=
  ⟨rfl, rfl, selfSignal_ignored "call1" ⟨"hangup", "u1", .empty⟩ "a"
    midCallState "u1" rfl rfl⟩

/-! ### C9: declineCall -/

/-- C9. `declineCall` never requests media capture (no `acquireMedia`
action ever appears among its effects), and with a pending incoming call
it persists the `declined` status and clears the incoming call, touching
nothing else. -/
theorem declineCall_no_media (s : HookState) :
    (∀ a ∈ (declineCall s).2, ∀ ct v au, a ≠ Action.acquireMedia ct v au)
    ∧ ∀ ic, s.incomingCall = some ic →
        (declineCall s).1 = { s with incomingCall := none }
        ∧ (declineCall s).2 = [Action.updateSessionStatus ic.session.id .declined] := by
  cases h : s.incomingCall <;> simp [declineCall, h]

/-- C9 witness: declining the concrete pending incoming call. -/
theorem declineCall_no_media_witness :
    incomingState.incomingCall = some incomingCallEx
    ∧ (declineCall incomingState).1 = { incomingState with incomingCall := none }
    ∧ (declineCall incomingState).2
        = [Action.updateSessionStatus incomingCallEx.session.id .declined] :=
  ⟨rfl,
   ((declineCall_no_media incomingState).2 incomingCallEx rfl).1,
   ((declineCall_no_media incomingState).2 incomingCallEx rfl).2⟩

/-! ### C10: guards on in-call controls -/

/-- C10. With no active call or no authenticated user, every in-call
control operation is a complete no-op: the state is returned unchanged
and no action (signal, message, session update, toast or media request)
is performed. -/
theorem controls_noop_without_call (s : HookState) (now : Int)
    (deviceId content : String) (mr dr : Except Unit MediaStreamM)
    (h : s.activeCall = none ∨ s.user = none) :
    endCall now s = (s, [])
    ∧ switchCamera deviceId mr s = (s, [])
    ∧ switchAudioDevice deviceId mr s = (s, [])
    ∧ toggleScreenShare dr s = (s, [])
    ∧ toggleRecording s = (s, [])
    ∧ sendCallMessage content s = (s, []) := by
  rcases h with h | h
  · simp [endCall, switchCamera, switchAudioDevice, toggleScreenShare,
      toggleRecording, sendCallMessage, h]
  · cases hA : s.activeCall <;> cases hP : s.peerConnection <;>
      simp [endCall, switchCamera, switchAudioDevice, toggleScreenShare,
        toggleRecording, sendCallMessage, h, hA, hP]

/-- C10 witness: on the freshly mounted state (no user, no active call)
all six controls return the state unchanged with no actions. -/
theorem controls_noop_without_call_witness :
    initialState.activeCall = none
    ∧ endCall 0 initialState = (initialState, [])
    ∧ switchCamera "cam2" (.ok newStreamEx) initialState = (initialState, [])
    ∧ switchAudioDevice "mic2" (.ok newStreamEx) initialState = (initialState, [])
    ∧ toggleScreenShare (.ok newStreamEx) initialState = (initialState, [])
    ∧ toggleRecording initialState = (initialState, [])
    ∧ sendCallMessage "hi" initialState = (initialState, []) := by
  have h := controls_noop_without_call initialState 0 "cam2" "hi"
    (.ok newStreamEx) (.ok newStreamEx) (Or.inl rfl)
  have h2 := controls_noop_without_call initialState 0 "mic2" "hi"
    (.ok newStreamEx) (.ok newStreamEx) (Or.inl rfl)
  exact ⟨rfl, h.1, h.2.1, h2.2.2.1, h.2.2.2.1, h.2.2.2.2.1, h.2.2.2.2.2⟩

/-! ### C5: session updates on the per-call channel -/

/-- C5. While a call is active, a session update carrying `ended` or
`declined` leaves `activeCall` null with the signaling channel
unsubscribed; any other update replaces `activeCall.session` with the
delivered row and changes nothing else in the state. -/
theorem sessionUpdate_teardown_or_merge (row : CallSessionM)
    (s : HookState) (ac : ActiveCallM) (hac : s.activeCall = some ac) :
    ((row.status = .ended ∨ row.status = .declined) →
        (handleSessionUpdate row s).1.activeCall = none
        ∧ (handleSessionUpdate row s).1.channel = none)
    ∧ (row.status ≠ .ended → row.status ≠ .declined →
        (handleSessionUpdate row s).1
          = { s with activeCall := some { ac with session := row } }) := by
  constructor
  · intro h
    simp [handleSessionUpdate, h, cleanup]
  · intro h1 h2
    simp [handleSessionUpdate, h1, h2, hac]

/-- C5 witness: on the mid-call state, an `ended` update tears down and a
`connected` update merely replaces the session. -/
theorem sessionUpdate_teardown_or_merge_witness :
    midCallState.activeCall = some activeCallEx
    ∧ ((endedRowEx.status = .ended ∨ endedRowEx.status = .declined) →
        (handleSessionUpdate endedRowEx midCallState).1.activeCall = none
        ∧ (handleSessionUpdate endedRowEx midCallState).1.channel = none)
    ∧ (sessionEx.status ≠ .ended → sessionEx.status ≠ .declined →
        (handleSessionUpdate sessionEx midCallState).1
          = { midCallState with
              activeCall := some { activeCallEx with session := sessionEx } }) :=
  ⟨rfl,
   fun h => (sessionUpdate_teardown_or_merge endedRowEx midCallState
     activeCallEx rfl).1 h,
   fun h1 h2 => (sessionUpdate_teardown_or_merge sessionEx midCallState
     activeCallEx rfl).2 h1 h2⟩

/-! ### C3: endCall and duration -/

/-- C3. `endCall` sends a hangup and persists `ended` with
`durationSeconds` the floor of `(endedAt - startedAt) / 1000`, where a
null `started_at` counts as `endedAt` itself (duration 0); consequently
`startCall` immediately followed by `endCall` persists a session with
status `ended` and duration 0. -/
theorem endCall_persists_ended_duration (s : HookState) (ac : ActiveCallM)
    (uid : String) (now : Int)
    (hac : s.activeCall = some ac) (hu : s.user = some uid) :
    (endCall now s).2 =
      [.insertSignal ac.session.id uid "hangup",
       .updateSessionEnded ac.session.id now
         (Int.fdiv (now - ac.session.started_at.getD now) 1000)]
    ∧ (ac.session.started_at = none →
        Int.fdiv (now - ac.session.started_at.getD now) 1000 = 0)
    ∧ ∀ (conversationId calleeId : String) (callType : CallType)
        (devices : Devices) (stream : MediaStreamM) (sessionId : String)
        (callee : Option CallParticipantM),
        applyActions (startCallRow conversationId calleeId callType uid sessionId now)
          ((startCall conversationId calleeId callType devices (.ok stream)
              sessionId callee now s).2
            ++ (endCall now (startCall conversationId calleeId callType devices
                  (.ok stream) sessionId callee now s).1).2)
          = { startCallRow conversationId calleeId callType uid sessionId now with
              status := .ended, ended_at := some now, duration_seconds := some 0 } := by
  refine ⟨?_, ?_, ?_⟩
  · simp [endCall, hac, hu]
  · intro h
    simp [h, Int.zero_fdiv]
  · intro conversationId calleeId callType devices stream sessionId callee
    simp [startCall, endCall, hu, startCallRow, applyActions, applyAction,
      Int.zero_fdiv]

/-- C3 witness: ending the concrete connected call at time 5000. -/
theorem endCall_persists_ended_duration_witness :
    midCallState.activeCall = some activeCallEx
    ∧ midCallState.user = some "u1"
    ∧ (endCall 5000 midCallState).2 =
        [.insertSignal activeCallEx.session.id "u1" "hangup",
         .updateSessionEnded activeCallEx.session.id 5000
           (Int.fdiv (5000 - activeCallEx.session.started_at.getD 5000) 1000)] :=
  ⟨rfl, rfl,
   (endCall_persists_ended_duration midCallState activeCallEx "u1" 5000 rfl rfl).1⟩

/-! ### C7: toggleAudio parity -/

/-- Flipping the first audio-kind track rewrites the head of the filtered
audio-track list accordingly. -/
lemma head_filter_setFirst (b : Bool) :
    ∀ (ts : List Track) (t : Track),
      (ts.filter (fun x => x.kind == "audio")).head? = some t →
      ((setFirstEnabledOfKind "audio" b ts).filter
          (fun x => x.kind == "audio")).head? = some { t with enabled := b } := by
  intro ts
  induction ts with
  | nil => intro t h; simp at h
  | cons x rest ih =>
    intro t h
    rw [List.filter_cons] at h
    by_cases hx : (x.kind == "audio") = true
    · rw [if_pos hx, List.head?_cons] at h
      injection h with h
      subst h
      rw [show setFirstEnabledOfKind "audio" b (x :: rest)
            = { x with enabled := b } :: rest from by
          simp [setFirstEnabledOfKind, hx]]
      rw [List.filter_cons,
        if_pos (show ({ x with enabled := b } : Track).kind == "audio" from hx)]
      rfl
    · rw [if_neg hx] at h
      have h2 := ih t h
      rw [show setFirstEnabledOfKind "audio" b (x :: rest)
            = x :: setFirstEnabledOfKind "audio" b rest from by
          simp [setFirstEnabledOfKind, hx]]
      rw [List.filter_cons, if_neg hx]
      exact h2

/-- One `toggleAudio` call on a state with a readable audio track flips
that track's enabled flag and mirrors the new value into the active
call's `isAudioEnabled`. -/
lemma toggleAudio_step (s : HookState) (b : Bool)
    (h : localAudioEnabled s = some b) :
    localAudioEnabled (toggleAudio s) = some (! b)
    ∧ (toggleAudio s).activeCall
        = s.activeCall.map (fun prev => { prev with isAudioEnabled := ! b }) := by
  cases hls : s.localStream with
  | none => simp [localAudioEnabled, hls] at h
  | some stream =>
    have h1 : stream.getAudioTracks.head?.map (fun t => t.enabled) = some b := by
      simpa [localAudioEnabled, hls] using h
    cases hht : stream.getAudioTracks.head? with
    | none => rw [hht] at h1; simp at h1
    | some t =>
      rw [hht] at h1
      have hb : t.enabled = b := by simpa using h1
      have hfind : List.find? (fun x => x.kind == "audio") stream.tracks = some t := by
        simpa [MediaStreamM.getAudioTracks] using hht
      have hset : List.find? (fun x => x.kind == "audio")
          (setFirstEnabledOfKind "audio" (! t.enabled) stream.tracks)
          = some { t with enabled := ! t.enabled } := by
        have := head_filter_setFirst (! t.enabled) stream.tracks t
          (by simpa [MediaStreamM.getAudioTracks] using hht)
        simpa using this
      rw [hb] at hset
      constructor
      · simp [localAudioEnabled, toggleAudio, hls,
          MediaStreamM.getAudioTracks, hfind, hset, hb]
      · simp [toggleAudio, hls, MediaStreamM.getAudioTracks, hfind, hb]

/-- C7. After `n` calls of `toggleAudio` on a state with a local audio
track and an active call, the track's enabled flag is the XOR of its
initial value with the parity of `n`, and (for `n ≥ 1`, i.e. after each
call) `activeCall.isAudioEnabled` equals the track's flag. -/
theorem toggleAudio_parity (n : ℕ) (s : HookState) (b : Bool)
    (ac : ActiveCallM)
    (h : localAudioEnabled s = some b) (hac : s.activeCall = some ac) :
    localAudioEnabled (toggleAudio^[n] s) = some (b ^^ decide (n % 2 = 1))
    ∧ (1 ≤ n → ∃ ac2 : ActiveCallM,
        (toggleAudio^[n] s).activeCall = some ac2
        ∧ some ac2.isAudioEnabled = localAudioEnabled (toggleAudio^[n] s)) := by
  induction n generalizing s b ac with
  | zero =>
    refine ⟨by simpa using h, ?_⟩
    intro h1; omega
  | succ m ih =>
    have step := toggleAudio_step s b h
    have hac2 : (toggleAudio s).activeCall
        = some { ac with isAudioEnabled := ! b } := by
      rw [step.2, hac]; rfl
    have main := ih (toggleAudio s) (! b) _ step.1 hac2
    rw [Function.iterate_succ_apply]
    constructor
    · rw [main.1]
      rcases Nat.mod_two_eq_zero_or_one m with hm | hm
      · have hm1 : (m + 1) % 2 = 1 := by omega
        simp [hm, hm1]
      · have hm0 : (m + 1) % 2 = 0 := by omega
        simp [hm, hm0]
    · intro _
      cases m with
      | zero =>
        refine ⟨{ ac with isAudioEnabled := ! b }, by simpa using hac2, ?_⟩
        simp only [Function.iterate_zero_apply]
        rw [step.1]
      | succ k => exact main.2 (by omega)

/-- C7 witness: three toggles on the mid-call state leave the track
disabled and mirrored. -/
theorem toggleAudio_parity_witness :
    localAudioEnabled midCallState = some true
    ∧ midCallState.activeCall = some activeCallEx
    ∧ localAudioEnabled (toggleAudio^[3] midCallState)
        = some (true ^^ decide (3 % 2 = 1))
    ∧ (1 ≤ 3 → ∃ ac2 : ActiveCallM,
        (toggleAudio^[3] midCallState).activeCall = some ac2
        ∧ some ac2.isAudioEnabled = localAudioEnabled (toggleAudio^[3] midCallState)) :=
  ⟨rfl, rfl,
   (toggleAudio_parity 3 midCallState true activeCallEx rfl rfl).1,
   (toggleAudio_parity 3 midCallState true activeCallEx rfl rfl).2⟩

/-! ### C8: switchCamera stops the wrong track -/

/-- C8 (code bug).  Because `getUserMedia` reassigns `localStreamRef`
before `switchCamera` reaches its `Stop old track` step, the "old tracks"
it stops are the video tracks of the freshly acquired stream: on the
concrete mid-call state the newly transmitting track `t-video-new` is
stopped while the previously transmitting `t-video-old` is never
stopped.  The replace, the `camera-switch` signal and the
selected-device update all still happen. -/
theorem switchCamera_stops_fresh_track :
    (switchCamera "cam2" (.ok newStreamEx) midCallState).1.stoppedTracks
        = ["t-video-new"]
    ∧ newVideoTrackEx.id
        ∈ (switchCamera "cam2" (.ok newStreamEx) midCallState).1.stoppedTracks
    ∧ videoTrackEx.id
        ∉ (switchCamera "cam2" (.ok newStreamEx) midCallState).1.stoppedTracks
    ∧ ((switchCamera "cam2" (.ok newStreamEx) midCallState).1.peerConnection.map
        (fun pc => pc.senders))
        = some [⟨some audioTrackEx⟩, ⟨some newVideoTrackEx⟩]
    ∧ (switchCamera "cam2" (.ok newStreamEx) midCallState).2
        = [.acquireMedia .video (some "cam2") none,
           .insertSignal "call1" "u1" "camera-switch"]
    ∧ ((switchCamera "cam2" (.ok newStreamEx) midCallState).1.activeCall.map
        (fun a => a.selectedCameraDeviceId)) = some (some "cam2") := by decide

end Breyky
